import Mathlib

/-! Verification of the PDF text-extraction shim `server/scripts/extract_pdf_text.py`.

The script wraps a single external extraction call (`pdfminer.high_level.extract_text`)
with a fixed layout-analysis configuration and normalizes its outcome into a uniform
result record that is serialized to standard output, with the process exit code
signaling success or failure.

Modelling choices:
* a Python string is a list of characters (`PyStr`), so `len` is `List.length`;
* `str.strip()` is modelled faithfully by `pyStrip`, dropping the characters of the
  Python whitespace set from both ends;
* the external extractor is a parameter `extract_text : PyStr → LAParams → Except PyStr PyStr`:
  `.ok t` means the call returned the string `t`, `.error m` means it raised an
  exception whose message (`str(e)`) is `m`; the `try/except Exception` block of the
  script corresponds to the `match` on this outcome;
* `json.dumps(result)` is modelled by `ExtractionResult.toJson`, producing a JSON
  value whose object fields follow the key insertion order of the Python dicts;
* `main` receives `argv` modelling `sys.argv` (the script name at index 0, so a
  single path argument means `argv.length = 2`) and returns the constructed record,
  the list of JSON lines printed to stdout, and the process exit code. -/

namespace ExtractPdf

/-- Python string, as its list of characters. -/
abbrev PyStr := List Char

/-- Membership in the whitespace set stripped by Python `str.strip()`
(the Unicode whitespace characters recognized by `str.isspace`). -/
def isPySpace (c : Char) : Bool :=
  let n := c.toNat
  (decide (0x9 ≤ n) && decide (n ≤ 0xd)) ||
  (decide (0x1c ≤ n) && decide (n ≤ 0x1f)) ||
  n == 0x20 || n == 0x85 || n == 0xa0 || n == 0x1680 ||
  (decide (0x2000 ≤ n) && decide (n ≤ 0x200a)) ||
  n == 0x2028 || n == 0x2029 || n == 0x202f || n == 0x205f || n == 0x3000

/-- Python `str.lstrip()`: drop leading whitespace. -/
def lstrip (s : PyStr) : PyStr := s.dropWhile isPySpace

/-- Python `str.rstrip()`: drop trailing whitespace. -/
def rstrip (s : PyStr) : PyStr := (s.reverse.dropWhile isPySpace).reverse

/-- Python `str.strip()`: drop leading and trailing whitespace. -/
def pyStrip (s : PyStr) : PyStr := rstrip (lstrip s)

/-- Layout-analysis parameters handed to the external extractor
(`pdfminer.layout.LAParams`). The numeric fields are the exact decimal
values of the literals in the script. -/
structure LAParams where
  line_margin : ℚ
  word_margin : ℚ
  char_margin : ℚ
  boxes_flow : ℚ
  all_texts : Bool
deriving DecidableEq

/-- The configuration built at lines 20-26 of the script: fixed literals,
no dependence on any input. -/
def laparams : LAParams :=
  { line_margin := 0.5
    word_margin := 0.1
    char_margin := 2.0
    boxes_flow := 0.5
    all_texts := false }

/-- The result record of one invocation. `error` is `some` exactly on the
failure dicts; `length` is `some` exactly on the success dict (the failure
dicts of the script carry no `length` key). -/
structure ExtractionResult where
  success : Bool
  error : Option PyStr
  text : PyStr
  length : Option Nat
deriving DecidableEq

/-- JSON values, for the serialized form of a result record. -/
inductive JsonValue where
  | null : JsonValue
  | bool (b : Bool) : JsonValue
  | num (n : Nat) : JsonValue
  | str (s : PyStr) : JsonValue
  | obj (fields : List (PyStr × JsonValue)) : JsonValue

/-- Serialization of an optional string, `null` for `None`. -/
def optStrJson : Option PyStr → JsonValue
  | none => .null
  | some s => .str s

/-- Model of `json.dumps(result)`: one JSON object whose keys follow the
insertion order of the dict the script builds on each branch
(success: `success, text, length, error`; failure: `success, error, text`). -/
def ExtractionResult.toJson (r : ExtractionResult) : JsonValue :=
  if r.success then
    .obj [("success".data, .bool r.success),
          ("text".data, .str r.text),
          ("length".data, match r.length with | some n => .num n | none => .null),
          ("error".data, optStrJson r.error)]
  else
    .obj [("success".data, .bool r.success),
          ("error".data, optStrJson r.error),
          ("text".data, .str r.text)]

/-- Embedding of `extract_pdf_text` (lines 16-53). The outcome of the guarded
call `extract_text(pdf_path, laparams=laparams)` is inspected: an exception is
converted to the failure record of the `except` clause; a returned string that
is empty or whitespace-only gives the no-text failure record; otherwise the
stripped text is returned as a success record with its character count. -/
def extract_pdf_text (extract_text : PyStr → LAParams → Except PyStr PyStr)
    (pdf_path : PyStr) : ExtractionResult :=
  match extract_text pdf_path laparams with
  | .error e =>
      { success := false
        error := some ("PDF extraction failed: ".data ++ e)
        text := []
        length := none }
  | .ok text =>
      if text = [] ∨ pyStrip text = [] then
        { success := false
          error := some "No text content found in PDF".data
          text := []
          length := none }
      else
        let cleaned_text := pyStrip text
        { success := true
          text := cleaned_text
          length := some cleaned_text.length
          error := none }

/-- The usage-error record built by `main` when the argument count is wrong. -/
def usage_result : ExtractionResult :=
  { success := false
    error := some "Usage: python extract_pdf_text.py <pdf_file_path>".data
    text := []
    length := none }

/-- Observable outcome of one run of `main`: the result dict it built, the JSON
lines printed to stdout, and the process exit status. -/
structure MainResult where
  record : ExtractionResult
  stdout : List JsonValue
  exit_code : Nat

/-- Embedding of `main` (lines 55-72). With `argv` modelling `sys.argv`
(script name included), a length other than 2 prints the usage record and
exits 1 without consulting the extractor; otherwise the extraction result for
`sys.argv[1]` is printed and the exit code is 0 exactly when it succeeded. -/
def main (extract_text : PyStr → LAParams → Except PyStr PyStr)
    (argv : List PyStr) : MainResult :=
  if argv.length ≠ 2 then
    { record := usage_result
      stdout := [usage_result.toJson]
      exit_code := 1 }
  else
    let pdf_path := argv.getD 1 []
    let result := extract_pdf_text extract_text pdf_path
    { record := result
      stdout := [result.toJson]
      exit_code := if result.success then 0 else 1 }

/-- Shape invariant of the result records (spec section 3): an error string is
present exactly on failure, the text is empty on failure, and the length field
is present exactly on success, where it counts the characters of `text`. -/
def resultWellFormed (r : ExtractionResult) : Prop :=
  (r.error.isSome ↔ r.success = false) ∧
  (r.success = false → r.text = []) ∧
  (r.length.isSome ↔ r.success = true) ∧
  (r.success = true → r.length = some r.text.length)

/-! Helper lemmas about `pyStrip`. -/

/-- Whatever `dropWhile p` puts first does not satisfy `p`. -/
theorem head?_dropWhile_not (p : Char → Bool) (l : PyStr) (c : Char)
    (h : (l.dropWhile p).head? = some c) : p c = false := by
  induction l with
  | nil => simp [List.dropWhile] at h
  | cons a t ih =>
    by_cases hp : p a = true
    · rw [List.dropWhile_cons_of_pos hp] at h
      exact ih h
    · rw [List.dropWhile_cons_of_neg hp] at h
      simp only [List.head?_cons, Option.some.injEq] at h
      subst h
      exact Bool.not_eq_true _ ▸ hp

/-- A list whose head does not satisfy `p` is unchanged by `dropWhile p`. -/
theorem dropWhile_eq_self_of_head (p : Char → Bool) (l : PyStr)
    (h : ∀ c, l.head? = some c → p c = false) : l.dropWhile p = l := by
  cases l with
  | nil => rfl
  | cons a t =>
    have ha : p a = false := h a rfl
    rw [List.dropWhile_cons_of_neg (by simp [ha])]

/-- `rstrip` is a prefix of its argument, so a nonempty `rstrip l` starts with
the head of `l`. -/
theorem head?_rstrip (l : PyStr) (c : Char)
    (h : (rstrip l).head? = some c) : l.head? = some c := by
  unfold rstrip at h
  rw [List.head?_reverse] at h
  have hsuff : l.reverse.dropWhile isPySpace <:+ l.reverse := List.dropWhile_suffix _
  obtain ⟨u, hu⟩ := hsuff
  have hne : l.reverse.dropWhile isPySpace ≠ [] := by
    intro hnil
    rw [hnil] at h
    simp at h
  have h2 : (u ++ l.reverse.dropWhile isPySpace).getLast? = some c := by
    rw [List.getLast?_append_of_ne_nil _ hne]
    exact h
  rw [hu, List.getLast?_reverse] at h2
  exact h2

/-- The first character of a nonempty stripped string is not whitespace. -/
theorem pyStrip_head_not_space (s : PyStr) (c : Char)
    (h : (pyStrip s).head? = some c) : isPySpace c = false := by
  have h1 : (lstrip s).head? = some c := head?_rstrip _ _ h
  exact head?_dropWhile_not _ _ _ h1

/-- The last character of a nonempty stripped string is not whitespace. -/
theorem pyStrip_getLast_not_space (s : PyStr) (c : Char)
    (h : (pyStrip s).getLast? = some c) : isPySpace c = false := by
  unfold pyStrip rstrip at h
  rw [List.getLast?_reverse] at h
  exact head?_dropWhile_not _ _ _ h

/-- Stripping is idempotent. -/
theorem pyStrip_idem (s : PyStr) : pyStrip (pyStrip s) = pyStrip s := by
  have h1 : lstrip (pyStrip s) = pyStrip s := by
    unfold lstrip
    exact dropWhile_eq_self_of_head _ _ (fun c hc => pyStrip_head_not_space s c hc)
  show rstrip (lstrip (pyStrip s)) = pyStrip s
  rw [h1]
  unfold rstrip
  rw [dropWhile_eq_self_of_head _ _ (fun c hc => ?_), List.reverse_reverse]
  rw [List.head?_reverse] at hc
  exact pyStrip_getLast_not_space s c hc

/-- Inversion of a successful extraction: the extractor returned some text `t`
that is neither empty nor whitespace-only, and the record is the success record
built from `pyStrip t`. -/
theorem extract_success_inv (e : PyStr → LAParams → Except PyStr PyStr) (p : PyStr)
    (hs : (extract_pdf_text e p).success = true) :
    ∃ t, e p laparams = .ok t ∧ t ≠ [] ∧ pyStrip t ≠ [] ∧
      extract_pdf_text e p =
        { success := true, text := pyStrip t, length := some (pyStrip t).length,
          error := none } := by
  revert hs
  unfold extract_pdf_text
  cases he : e p laparams with
  | error m =>
    intro hs
    simp at hs
  | ok t =>
    intro hs
    dsimp only at hs ⊢
    by_cases hb : t = [] ∨ pyStrip t = []
    · rw [if_pos hb] at hs
      simp at hs
    · rw [if_neg hb]
      push_neg at hb
      exact ⟨t, rfl, hb.1, hb.2, rfl⟩

/-! Claim theorems. -/

/-- C1: when the external extractor returns text `t` that is non-empty and not
whitespace-only, `extract_pdf_text` returns exactly the record with
`success = true`, `text` the stripped `t`, `length` the character count of the
stripped text, and a null `error`. -/
theorem extract_success_path
    (extract_text : PyStr → LAParams → Except PyStr PyStr) (pdf_path t : PyStr)
    (hret : extract_text pdf_path laparams = .ok t)
    (hne : t ≠ []) (hws : pyStrip t ≠ []) :
    extract_pdf_text extract_text pdf_path =
      { success := true, text := pyStrip t, length := some (pyStrip t).length,
        error := none } := by
  unfold extract_pdf_text
  rw [hret]
  dsimp only
  rw [if_neg (by simp [hne, hws])]

/-- C1 witness: a concrete extractor output `" hi "` yields the success record
with text `"hi"` and length 2. -/
theorem extract_success_path_witness :
    extract_pdf_text (fun _ _ => .ok [' ', 'h', 'i', ' ']) ['p'] =
      { success := true, text := ['h', 'i'], length := some 2, error := none } := by
  have h := extract_success_path (fun _ _ => .ok [' ', 'h', 'i', ' ']) ['p']
    [' ', 'h', 'i', ' '] rfl (by decide) (by decide)
  rw [h]
  decide

/-- C2: every exception raised by the external extraction call is caught and
converted into the failure record whose error is the fixed prefix followed by
the underlying message; the shim is a total function, so no error escapes. -/
theorem extract_exception_path
    (extract_text : PyStr → LAParams → Except PyStr PyStr) (pdf_path msg : PyStr)
    (hret : extract_text pdf_path laparams = .error msg) :
    extract_pdf_text extract_text pdf_path =
      { success := false, error := some ("PDF extraction failed: ".data ++ msg),
        text := [], length := none } := by
  unfold extract_pdf_text
  rw [hret]

/-- C2 witness: a concrete raised exception with message `"x"`. -/
theorem extract_exception_path_witness :
    extract_pdf_text (fun _ _ => .error ['x']) ['p'] =
      { success := false, error := some ("PDF extraction failed: ".data ++ ['x']),
        text := [], length := none } :=
  extract_exception_path (fun _ _ => .error ['x']) ['p'] ['x'] rfl

/-- C3: when the extractor returns no text or only whitespace, the result is the
fixed no-text failure record, and a success record can never carry empty text. -/
theorem extract_no_text_path :
    (∀ (extract_text : PyStr → LAParams → Except PyStr PyStr) (pdf_path t : PyStr),
      extract_text pdf_path laparams = .ok t → (t = [] ∨ pyStrip t = []) →
      extract_pdf_text extract_text pdf_path =
        { success := false, error := some "No text content found in PDF".data,
          text := [], length := none }) ∧
    (∀ (extract_text : PyStr → LAParams → Except PyStr PyStr) (pdf_path : PyStr),
      (extract_pdf_text extract_text pdf_path).success = true →
      (extract_pdf_text extract_text pdf_path).text ≠ []) := by
  constructor
  · intro e p t hret hblank
    unfold extract_pdf_text
    rw [hret]
    dsimp only
    rw [if_pos hblank]
  · intro e p hs
    obtain ⟨t, -, -, hws, heq⟩ := extract_success_inv e p hs
    rw [heq]
    exact hws

/-- C3 witness: a whitespace-only extractor output yields the fixed no-text
failure record. -/
theorem extract_no_text_path_witness :
    extract_pdf_text (fun _ _ => .ok [' ']) ['p'] =
      { success := false, error := some "No text content found in PDF".data,
        text := [], length := none } :=
  extract_no_text_path.1 (fun _ _ => .ok [' ']) ['p'] [' '] rfl (Or.inr (by decide))

/-- C4: with any argument count other than exactly one path argument
(`argv.length ≠ 2`, the script name being `argv[0]`), `main` emits the usage
record and exits 1; the right-hand side does not involve the extractor, so no
extraction call and no file access happen. -/
theorem main_usage_error
    (extract_text : PyStr → LAParams → Except PyStr PyStr) (argv : List PyStr)
    (h : argv.length ≠ 2) :
    main extract_text argv =
      { record := usage_result, stdout := [usage_result.toJson], exit_code := 1 } := by
  unfold main
  rw [if_pos h]

/-- C4 witness: invoking with an empty argument vector. -/
theorem main_usage_error_witness :
    main (fun _ _ => .ok ['a']) [] =
      { record := usage_result, stdout := [usage_result.toJson], exit_code := 1 } :=
  main_usage_error (fun _ _ => .ok ['a']) [] (by decide)

/-- C5: the process exit status is 0 exactly when the produced record has
`success = true`, and is otherwise 1, on every branch (usage error, extraction
error, no-text, success). -/
theorem main_exit_code
    (extract_text : PyStr → LAParams → Except PyStr PyStr) (argv : List PyStr) :
    ((main extract_text argv).exit_code = 0 ↔
      (main extract_text argv).record.success = true) ∧
    (main extract_text argv).exit_code =
      (if (main extract_text argv).record.success then 0 else 1) := by
  unfold main
  by_cases h : argv.length ≠ 2
  · rw [if_pos h]
    simp [usage_result]
  · rw [if_neg h]
    dsimp only
    cases (extract_pdf_text extract_text (argv.getD 1 [])).success <;> simp

/-- C6: on every invocation, exactly one JSON record is written to stdout, and
it is the serialization of the result record the run constructed — on the
usage, exception, no-text and success branches alike. -/
theorem main_single_output
    (extract_text : PyStr → LAParams → Except PyStr PyStr) (argv : List PyStr) :
    (main extract_text argv).stdout =
      [ExtractionResult.toJson (main extract_text argv).record] := by
  unfold main
  by_cases h : argv.length ≠ 2
  · rw [if_pos h]
  · rw [if_neg h]

/-- C7: every record the program can produce — any output of `extract_pdf_text`
and the usage record — satisfies the shape invariant: an error string present
iff failure, empty text on failure, and a length field present iff success,
equal there to the character count of the text. -/
theorem result_shape_invariant :
    (∀ (extract_text : PyStr → LAParams → Except PyStr PyStr) (pdf_path : PyStr),
      resultWellFormed (extract_pdf_text extract_text pdf_path)) ∧
    resultWellFormed usage_result := by
  constructor
  · intro e p
    unfold extract_pdf_text
    cases e p laparams with
    | error m => simp [resultWellFormed]
    | ok t =>
      dsimp only
      by_cases hb : t = [] ∨ pyStrip t = []
      · rw [if_pos hb]
        simp [resultWellFormed]
      · rw [if_neg hb]
        simp [resultWellFormed]
  · simp [resultWellFormed, usage_result]

/-- C7 witness: the invariant evaluated on a concrete success record. -/
theorem result_shape_invariant_witness :
    resultWellFormed (extract_pdf_text (fun _ _ => .ok ['h']) ['p']) :=
  result_shape_invariant.1 (fun _ _ => .ok ['h']) ['p']

/-- C8: extraction is deterministic in the extractor output: if two runs see
the same returned text (the extractor agrees at the path and the fixed
configuration), the resulting `text` and `length` fields coincide. -/
theorem extract_deterministic
    (e₁ e₂ : PyStr → LAParams → Except PyStr PyStr) (pdf_path : PyStr)
    (h : e₁ pdf_path laparams = e₂ pdf_path laparams) :
    (extract_pdf_text e₁ pdf_path).text = (extract_pdf_text e₂ pdf_path).text ∧
    (extract_pdf_text e₁ pdf_path).length = (extract_pdf_text e₂ pdf_path).length := by
  unfold extract_pdf_text
  rw [h]
  exact ⟨rfl, rfl⟩

/-- C8 witness: two syntactically different extractors agreeing on the call. -/
theorem extract_deterministic_witness :
    (extract_pdf_text (fun _ _ => .ok ['a']) ['p']).text =
      (extract_pdf_text (fun _x _y => .ok ['a']) ['p']).text ∧
    (extract_pdf_text (fun _ _ => .ok ['a']) ['p']).length =
      (extract_pdf_text (fun _x _y => .ok ['a']) ['p']).length :=
  extract_deterministic (fun _ _ => .ok ['a']) (fun _x _y => .ok ['a']) ['p'] rfl

/-- C9: the layout-analysis configuration is the fixed constant
(line-merge 1/2, word-merge 1/10, character-margin 2, text-flow 1/2, non-text
elements excluded), and the extractor is consulted only at that constant, so no
caller input influences the configuration passed to it. -/
theorem laparams_constant :
    laparams = { line_margin := 1/2, word_margin := 1/10, char_margin := 2,
                 boxes_flow := 1/2, all_texts := false } ∧
    ∀ (e₁ e₂ : PyStr → LAParams → Except PyStr PyStr) (pdf_path : PyStr),
      e₁ pdf_path laparams = e₂ pdf_path laparams →
      extract_pdf_text e₁ pdf_path = extract_pdf_text e₂ pdf_path := by
  constructor
  · simp only [laparams, LAParams.mk.injEq]
    norm_num
  · intro e₁ e₂ p h
    unfold extract_pdf_text
    rw [h]

/-- C9 witness: two extractors agreeing at the fixed configuration. -/
theorem laparams_constant_witness :
    extract_pdf_text (fun _ _ => .ok ['a']) ['p'] =
      extract_pdf_text (fun _p _c => .ok ['a']) ['p'] :=
  laparams_constant.2 (fun _ _ => .ok ['a']) (fun _p _c => .ok ['a']) ['p'] rfl

/-- C10: every success record carries text that is non-empty (so its length is
at least 1) and already trimmed: stripping it again changes nothing, and it
neither starts nor ends with a whitespace character. -/
theorem success_text_trimmed
    (extract_text : PyStr → LAParams → Except PyStr PyStr) (pdf_path : PyStr)
    (hs : (extract_pdf_text extract_text pdf_path).success = true) :
    (extract_pdf_text extract_text pdf_path).text ≠ [] ∧
    1 ≤ (extract_pdf_text extract_text pdf_path).text.length ∧
    pyStrip (extract_pdf_text extract_text pdf_path).text =
      (extract_pdf_text extract_text pdf_path).text ∧
    (∀ c, (extract_pdf_text extract_text pdf_path).text.head? = some c →
      isPySpace c = false) ∧
    (∀ c, (extract_pdf_text extract_text pdf_path).text.getLast? = some c →
      isPySpace c = false) := by
  obtain ⟨t, -, -, hws, heq⟩ := extract_success_inv extract_text pdf_path hs
  rw [heq]
  exact ⟨hws, List.length_pos.mpr hws, pyStrip_idem t,
    fun c hc => pyStrip_head_not_space t c hc,
    fun c hc => pyStrip_getLast_not_space t c hc⟩

/-- C10 witness: the success record for extractor output `" hi "`. -/
theorem success_text_trimmed_witness :
    (extract_pdf_text (fun _ _ => .ok [' ', 'h', 'i', ' ']) ['p']).text ≠ [] ∧
    1 ≤ (extract_pdf_text (fun _ _ => .ok [' ', 'h', 'i', ' ']) ['p']).text.length ∧
    pyStrip (extract_pdf_text (fun _ _ => .ok [' ', 'h', 'i', ' ']) ['p']).text =
      (extract_pdf_text (fun _ _ => .ok [' ', 'h', 'i', ' ']) ['p']).text ∧
    (∀ c, (extract_pdf_text (fun _ _ => .ok [' ', 'h', 'i', ' ']) ['p']).text.head? = some c →
      isPySpace c = false) ∧
    (∀ c, (extract_pdf_text (fun _ _ => .ok [' ', 'h', 'i', ' ']) ['p']).text.getLast? = some c →
      isPySpace c = false) :=
  success_text_trimmed (fun _ _ => .ok [' ', 'h', 'i', ' ']) ['p'] (by decide)

end ExtractPdf
